import Mathlib

/-!
# Verification of the honeypot VM fleet manager and SSH MITM relay

Shallow embedding of `src/defense/tarpit_boxes/docker/honey_manager_paramiko.py`.

The Python module keeps a pool of disposable VMs (`VMManager`): one optional
"warm" spare plus a dict of "hot" sessions keyed by client IP, each with a
`last_seen` timestamp.  A paramiko-based man-in-the-middle relay terminates
attacker SSH sessions, records keystrokes (`CommandLogger`), and bridges to the
assigned VM with credentials resolved by `_resolve_backend_credentials`.

Modelling conventions:
* `datetime.now()` values are abstract `Nat` timestamps measured in seconds;
  `timedelta(minutes=PERSISTENCE_MINUTES)` becomes `PERSISTENCE_MINUTES * 60`
  seconds.  `now - last_seen > timedelta(...)` is `PERSISTENCE_MINUTES * 60 <
  now - last_seen` with truncated `Nat` subtraction, which agrees with the
  Python comparison because the threshold is non-negative.
* the Python dict `hot_vms` is an association list in insertion order
  (Python dicts preserve insertion order and have unique keys).
* libvirt domain handles are abstract `Nat` identifiers.
* side effects (domain destruction, disk unlink) are returned as an explicit
  `Effect` list; log lines are not modelled unless a claim is about them.
* hypervisor/guest-agent nondeterminism (`_create_transient_vm` outcome,
  `get_vm_ip` result, `dom.isActive()`, `os.path.exists`) is supplied through a
  `ProvisionEnv` parameter.
-/

namespace HoneyManager

/-- Configuration constant `MAX_HOT_VMS = 1` ("Max simultaneous attacks"). -/
def MAX_HOT_VMS : Nat := 1

/-- Configuration constant `PERSISTENCE_MINUTES = 10`
("Time to keep VM alive after disconnect"). -/
def PERSISTENCE_MINUTES : Nat := 10

/-- A warm VM entry: the dict `{"dom": dom, "ip": ip, "id": run_id, "disk":
disk_path}` stored in `self.warm_vm` by `ensure_warm_vm`. -/
structure WarmEntry where
  dom : Nat
  ip : String
  run_id : String
  disk : String
  deriving Repr, DecidableEq

/-- A hot session entry: the same dict after `get_target_for_client` added
`"last_seen"` while promoting it into `self.hot_vms[client_ip]`. -/
structure HotEntry where
  dom : Nat
  ip : String
  run_id : String
  disk : String
  last_seen : Nat
  deriving Repr, DecidableEq

/-- `VMManager` pool state: `self.warm_vm` (optional single slot) and
`self.hot_vms` (insertion-ordered dict `client_ip -> entry`). -/
structure PoolState where
  warm_vm : Option WarmEntry
  hot_vms : List (String × HotEntry)
  deriving Repr, DecidableEq

/-- The pool right after `VMManager.__init__`: no warm VM, empty dict. -/
def initPool : PoolState := { warm_vm := none, hot_vms := [] }

/-- Dict lookup `self.hot_vms[client_ip]` (and the `client_ip in self.hot_vms`
test via `isSome`). -/
def lookupHot (l : List (String × HotEntry)) (k : String) : Option HotEntry :=
  (l.find? (fun p => p.1 = k)).map Prod.snd

/-- In-place mutation `vm["last_seen"] = datetime.now()` of the entry stored
under key `k` (Python mutates the dict value; keys and order are untouched). -/
def setLastSeen (l : List (String × HotEntry)) (k : String) (t : Nat) :
    List (String × HotEntry) :=
  l.map (fun p => if p.1 = k then (p.1, { p.2 with last_seen := t }) else p)

/-- Observable hypervisor/filesystem side effects of pool operations. -/
inductive Effect where
  | destroyVM (dom : Nat)
  | deleteDisk (path : String)
  deriving Repr, DecidableEq

/-- Outcome of `_create_transient_vm` (overlay disk + define + boot): either a
booted domain with its run id and disk path, or an exception part-way through
(`qemu-img`/`defineXML`/`create` raising), recorded with whatever overlay disk
file had already been created before the raise. -/
inductive CreateResult where
  | ok (dom : Nat) (run_id : String) (disk : String)
  | raises (createdDisk : Option String)
  deriving Repr, DecidableEq

/-- Environment resolving the nondeterministic hypervisor interactions of one
`ensure_warm_vm` / cleanup call. -/
structure ProvisionEnv where
  /-- outcome of `self._create_transient_vm()` -/
  create : CreateResult
  /-- result of `await self.get_vm_ip(dom)`: a routable IPv4 or `None` on
  guest-agent timeout -/
  ipResult : Option String
  /-- `vm_entry["dom"].isActive()` -/
  isActive : Nat → Bool
  /-- `os.path.exists(vm_entry["disk"])` -/
  diskExists : String → Bool

/-- `VMManager.cleanup_vm_entry`: destroys the domain if active (exceptions
swallowed) and unlinks the overlay disk if present.  Returns the effects. -/
def cleanup_vm_entry (env : ProvisionEnv) (dom : Nat) (disk : String) :
    List Effect :=
  (if env.isActive dom then [Effect.destroyVM dom] else [])
    ++ (if env.diskExists disk then [Effect.deleteDisk disk] else [])

/-- `VMManager.ensure_warm_vm`: under the pool lock, returns immediately when
at hot capacity or a warm VM already exists; otherwise creates a transient VM
and waits for its IP.  On success stores the warm entry; on guest-agent
timeout calls `cleanup_vm_entry` on the half-built VM; an exception from
creation is caught by the `except` clause, which only logs it (no cleanup)
and returns normally. -/
def ensure_warm_vm (env : ProvisionEnv) (st : PoolState) :
    PoolState × List Effect :=
  if MAX_HOT_VMS ≤ st.hot_vms.length then
    (st, [])
  else
    match st.warm_vm with
    | some _ => (st, [])
    | none =>
      match env.create with
      | CreateResult.raises _ => (st, [])
      | CreateResult.ok dom run_id disk =>
        match env.ipResult with
        | some ip =>
          ({ st with warm_vm := some ⟨dom, ip, run_id, disk⟩ }, [])
        | none => (st, cleanup_vm_entry env dom disk)

/-- Promotion of the warm entry into a hot session:
`target_vm["last_seen"] = datetime.now()` before
`self.hot_vms[client_ip] = target_vm`. -/
def promote (w : WarmEntry) (now : Nat) : HotEntry :=
  ⟨w.dom, w.ip, w.run_id, w.disk, now⟩

/-- `VMManager.get_target_for_client(client_ip)`: sticky reuse of an existing
hot session (refreshing `last_seen`), capacity rejection at `MAX_HOT_VMS`,
otherwise atomic promotion of the warm VM (the `asyncio.create_task(
self.ensure_warm_vm())` refill is a separately scheduled pool step and is
modelled as such in `PoolStep`). -/
def get_target_for_client (st : PoolState) (client_ip : String) (now : Nat) :
    PoolState × Option String :=
  match lookupHot st.hot_vms client_ip with
  | some vm =>
    ({ st with hot_vms := setLastSeen st.hot_vms client_ip now }, some vm.ip)
  | none =>
    if MAX_HOT_VMS ≤ st.hot_vms.length then
      (st, none)
    else
      match st.warm_vm with
      | some w =>
        ({ st with
            warm_vm := none
            hot_vms := st.hot_vms ++ [(client_ip, promote w now)] },
          some w.ip)
      | none => (st, none)

/-- The expiry test of `cleanup_expired_sessions`:
`force or now - vm["last_seen"] > timedelta(minutes=PERSISTENCE_MINUTES)`. -/
def sessionExpired (force : Bool) (now last_seen : Nat) : Bool :=
  force || decide (PERSISTENCE_MINUTES * 60 < now - last_seen)

/-- `VMManager.cleanup_expired_sessions(force)`: collects every hot entry whose
session expired (all of them when forced), then for each collected key calls
`cleanup_vm_entry` and deletes the key from `hot_vms`.  Since dict keys are
unique, deleting exactly the collected keys leaves the dict filtered to the
non-expired entries in their original order. -/
def cleanup_expired_sessions (env : ProvisionEnv) (st : PoolState) (now : Nat)
    (force : Bool) : PoolState × List Effect :=
  let expired := st.hot_vms.filter (fun p => sessionExpired force now p.2.last_seen)
  let effects := expired.flatMap (fun p => cleanup_vm_entry env p.2.dom p.2.disk)
  ({ st with
      hot_vms :=
        st.hot_vms.filter (fun p => !sessionExpired force now p.2.last_seen) },
    effects)

/-- One pool-state transition: any of the three pool operations with arbitrary
arguments/environment.  `asyncio` serializes all of them on one event loop, so
interleavings are exactly sequences of these steps. -/
inductive PoolStep : PoolState → PoolState → Prop where
  | ensure (env : ProvisionEnv) (st : PoolState) :
      PoolStep st (ensure_warm_vm env st).1
  | target (client_ip : String) (now : Nat) (st : PoolState) :
      PoolStep st (get_target_for_client st client_ip now).1
  | cleanup (env : ProvisionEnv) (now : Nat) (force : Bool) (st : PoolState) :
      PoolStep st (cleanup_expired_sessions env st now force).1

/-- States reachable from the freshly initialized pool by pool operations. -/
inductive Reachable : PoolState → Prop where
  | init : Reachable initPool
  | step {s s' : PoolState} : Reachable s → PoolStep s s' → Reachable s'

/-- Number of warm instances held by the pool (the slot is a single
`Option`). -/
def warmCount (st : PoolState) : Nat :=
  match st.warm_vm with
  | some _ => 1
  | none => 0

/-!
## `send_all`

The sender (`send_fn or channel.send`) is modelled as a function from the
remaining view to the call's result: `none` for paramiko's `None` return
(treated by the source as "all sent", breaking the loop), or `some k` meaning
`k` bytes of the view were accepted.  The result is the list of byte chunks
accepted by successive sender calls (chunk `i` is the prefix of the view that
call `i` consumed); `Except.error ()` models the `EOFError` raised when a call
returns `0`.
-/

/-- The `while view:` loop body of `send_all`: call the sender on the
remaining view, raise `EOFError` on `0`, stop on `None`, otherwise advance the
view past the accepted prefix. -/
def sendLoop (sender : List Nat → Option Nat) :
    (view : List Nat) → Except Unit (List (List Nat))
  | [] => Except.ok []
  | a :: rest =>
    match sender (a :: rest) with
    | none => Except.ok []
    | some 0 => Except.error ()
    | some (k + 1) =>
      match sendLoop sender ((a :: rest).drop (k + 1)) with
      | Except.ok chunks => Except.ok ((a :: rest).take (k + 1) :: chunks)
      | Except.error e => Except.error e
termination_by view => view.length
decreasing_by simp [List.length_drop]; omega

/-- `send_all(channel, data, send_fn)`: empty payloads return immediately;
otherwise the view loop runs until the payload is exhausted. -/
def send_all (sender : List Nat → Option Nat) (data : List Nat) :
    Except Unit (List (List Nat)) :=
  if data.isEmpty then Except.ok [] else sendLoop sender data

/-!
## `CommandLogger` (keystroke side)

`feed_keystrokes` decodes the payload (`payload.decode(errors="ignore")`) and
walks it character by character; the model takes the decoded text directly as
a list of code points (ASCII bytes decode to themselves).  The response side
(`feed_response`, `_write_truncated_responses`) is not modelled: when only
keystrokes are fed, `self._response_lines` stays empty and
`_write_truncated_responses` — called first by `_flush_line` — returns
immediately, so `_flush_line` reduces to the command-buffer behaviour
embedded here.
-/

/-- Python `str.isprintable()` restricted to the Basic Latin range: printable
characters are `0x20..0x7e` (space included, control characters and DEL
excluded).  All keystroke inputs in the claims are ASCII, where this matches
Python exactly. -/
def pyIsPrintable (c : Nat) : Bool := 0x20 ≤ c && c < 0x7f

/-- ASCII whitespace stripped by Python `str.strip()`.  Buffers built by
`feed_keystrokes` contain only printable characters, so only `0x20` can
actually occur at the ends. -/
def pyWhitespace (c : Nat) : Bool :=
  c == 32 || c == 9 || c == 10 || c == 11 || c == 12 || c == 13

/-- Python `str.strip()`: drop whitespace from both ends. -/
def pyStrip (l : List Nat) : List Nat :=
  ((l.dropWhile pyWhitespace).reverse.dropWhile pyWhitespace).reverse

/-- `CommandLogger` state relevant to keystrokes: the pending line buffer
`self._buffer` and the `CMD>` lines flushed so far (each logged line's
command text, in order). -/
structure CommandLogger where
  buffer : List Nat
  cmdLog : List (List Nat)
  deriving Repr, DecidableEq

/-- A fresh `CommandLogger(client_ip)`. -/
def initLogger : CommandLogger := { buffer := [], cmdLog := [] }

/-- `CommandLogger._flush_line`: with no pending responses, returns if the
buffer is empty, otherwise joins and strips it, logs the line when non-empty,
and clears the buffer. -/
def flush_line (cl : CommandLogger) : CommandLogger :=
  if cl.buffer.isEmpty then cl
  else
    let line := pyStrip cl.buffer
    if line.isEmpty then { cl with buffer := [] }
    else { cl with buffer := [], cmdLog := cl.cmdLog ++ [line] }

/-- Processing of one decoded character by `feed_keystrokes`: `\r`/`\n` flush
the line, backspace (`\x7f`) pops the last pending character if any, printable
characters are appended, everything else is dropped. -/
def feedChar (cl : CommandLogger) (c : Nat) : CommandLogger :=
  if c == 13 || c == 10 then flush_line cl
  else if c == 0x7f then { cl with buffer := cl.buffer.dropLast }
  else if pyIsPrintable c then { cl with buffer := cl.buffer ++ [c] }
  else cl

/-- `CommandLogger.feed_keystrokes`: fold the per-character step over the
decoded payload. -/
def feed_keystrokes (cl : CommandLogger) (text : List Nat) : CommandLogger :=
  text.foldl feedChar cl

/-- Code points of a Lean string, for writing concrete keystroke payloads. -/
def strCodes (s : String) : List Nat := s.data.map Char.toNat

/-!
## Credentials and deceptive authentication
-/

/-- Configuration constant `BACKEND_USERNAME = "root"`. -/
def BACKEND_USERNAME : String := "root"

/-- Configuration constant `BACKEND_PASSWORD = "root"`. -/
def BACKEND_PASSWORD : String := "root"

/-- Configuration constant `BACKEND_KEY_PATH = None`. -/
def BACKEND_KEY_PATH : Option String := none

/-- Python truthiness of an optional string (`None` and `""` are falsy). -/
def pyTruthy : Option String → Bool
  | none => false
  | some s => !s.isEmpty

/-- `_resolve_backend_credentials(server)`, parameterized over the
`USE_ATTACKER_CREDENTIALS` toggle and the credentials the frontend captured.
The source returns the attacker pair exactly when the toggle is set and both
`server.username` and `server.password` are truthy; otherwise (the
missing-password case logs a warning, not modelled) it falls through to the
static fallback, raising `RuntimeError` only if `BACKEND_USERNAME` were
falsy. -/
def resolve_backend_credentials (useAttackerCreds : Bool)
    (username password : Option String) :
    Except String (String × String × Option String) :=
  if useAttackerCreds && pyTruthy username && pyTruthy password then
    Except.ok (username.getD "", password.getD "", none)
  else if !BACKEND_USERNAME.isEmpty then
    Except.ok (BACKEND_USERNAME, BACKEND_PASSWORD, BACKEND_KEY_PATH)
  else
    Except.error "No backend credentials configured and attacker creds disabled."

/-- Paramiko auth results (`AUTH_SUCCESSFUL` / `AUTH_FAILED`). -/
inductive AuthResult where
  | successful
  | failed
  deriving Repr, DecidableEq

/-- The mutable fields of `HoneypotServerInterface` the auth callbacks touch,
plus the lines its shared `CommandLogger` prints (`log_auth`/`log_event`). -/
structure HoneypotServerInterface where
  client_ip : String
  username : Option String
  password : Option String
  authLog : List String
  deriving Repr, DecidableEq

/-- The line printed by `CommandLogger.log_auth`. -/
def log_auth_line (client_ip u p : String) : String :=
  "[" ++ client_ip ++ "] AUTH username=" ++ u ++ " password=" ++ p

/-- `HoneypotServerInterface.check_auth_password`: records the offered
username and password, logs them, and always returns `AUTH_SUCCESSFUL`. -/
def check_auth_password (s : HoneypotServerInterface) (u p : String) :
    HoneypotServerInterface × AuthResult :=
  ({ s with
      username := some u
      password := some p
      authLog := s.authLog ++ [log_auth_line s.client_ip u p] },
    AuthResult.successful)

/-- `HoneypotServerInterface.check_auth_publickey`: records the offered
username, logs the key fingerprint (the model takes the hex fingerprint
directly), and always returns `AUTH_SUCCESSFUL`. -/
def check_auth_publickey (s : HoneypotServerInterface) (u : String)
    (fingerprintHex : String) : HoneypotServerInterface × AuthResult :=
  ({ s with
      username := some u
      authLog := s.authLog
        ++ ["[" ++ s.client_ip ++ "] AUTH publickey user=" ++ u
              ++ " fingerprint=" ++ fingerprintHex] },
    AuthResult.successful)

/-- `HoneypotServerInterface.check_auth_none`: records the username, logs the
attempt, and returns `AUTH_FAILED` (the client is pushed to retry with
password or public key). -/
def check_auth_none (s : HoneypotServerInterface) (u : String) :
    HoneypotServerInterface × AuthResult :=
  ({ s with
      username := some u
      authLog := s.authLog
        ++ ["[" ++ s.client_ip ++ "] AUTH none user=" ++ u ++ " (rejecting)"] },
    AuthResult.failed)

/-!
## Helper lemmas
-/

theorem lookupHot_cons (p : String × HotEntry) (l : List (String × HotEntry))
    (k : String) :
    lookupHot (p :: l) k = if p.1 = k then some p.2 else lookupHot l k := by
  by_cases h : p.1 = k
  · simp [lookupHot, List.find?_cons_of_pos, h]
  · simp [lookupHot, List.find?_cons_of_neg, h]

theorem setLastSeen_cons (p : String × HotEntry) (l : List (String × HotEntry))
    (k : String) (t : Nat) :
    setLastSeen (p :: l) k t
      = (if p.1 = k then (p.1, { p.2 with last_seen := t }) else p)
          :: setLastSeen l k t := rfl

theorem lookupHot_setLastSeen_self (l : List (String × HotEntry)) (k : String)
    (t : Nat) :
    lookupHot (setLastSeen l k t) k
      = (lookupHot l k).map (fun vm => { vm with last_seen := t }) := by
  induction l with
  | nil => rfl
  | cons p l ih =>
    rw [setLastSeen_cons, lookupHot_cons, lookupHot_cons]
    by_cases h : p.1 = k
    · simp [h]
    · simp [h, ih]

theorem lookupHot_setLastSeen_ne (l : List (String × HotEntry)) (k k' : String)
    (t : Nat) (hne : k' ≠ k) :
    lookupHot (setLastSeen l k t) k' = lookupHot l k' := by
  induction l with
  | nil => rfl
  | cons p l ih =>
    rw [setLastSeen_cons, lookupHot_cons, lookupHot_cons]
    by_cases h' : p.1 = k'
    · have h : ¬p.1 = k := fun hk => hne (h'.symm.trans hk)
      simp [h, h', hne]
    · by_cases h : p.1 = k
      · have hkk : ¬k = k' := fun e => h' (h.trans e)
        simp [h, h', hkk, ih]
      · simp [h, h', ih]

theorem setLastSeen_keys (l : List (String × HotEntry)) (k : String) (t : Nat) :
    (setLastSeen l k t).map Prod.fst = l.map Prod.fst := by
  induction l with
  | nil => rfl
  | cons p l ih =>
    by_cases h : p.1 = k <;> simp [setLastSeen, h] at ih ⊢ <;> exact ih

theorem setLastSeen_length (l : List (String × HotEntry)) (k : String)
    (t : Nat) : (setLastSeen l k t).length = l.length := by
  simp [setLastSeen]

/-!
## Claim theorems
-/

/-- C2.  Stickiness: when `client_ip` already owns a hot session, each
`get_target_for_client(client_ip)` call returns that session's IP — two
consecutive calls with nothing in between therefore return the same IP — and
each call refreshes the session's `last_seen` to the call's current time. -/
theorem stickiness_consecutive_calls (st : PoolState) (client_ip : String)
    (vm : HotEntry) (t1 t2 : Nat)
    (h : lookupHot st.hot_vms client_ip = some vm) :
    (get_target_for_client st client_ip t1).2 = some vm.ip ∧
    (get_target_for_client (get_target_for_client st client_ip t1).1
        client_ip t2).2 = some vm.ip ∧
    lookupHot (get_target_for_client st client_ip t1).1.hot_vms client_ip
      = some { vm with last_seen := t1 } ∧
    lookupHot (get_target_for_client (get_target_for_client st client_ip t1).1
        client_ip t2).1.hot_vms client_ip = some { vm with last_seen := t2 } := by
  have h1 :
      lookupHot (setLastSeen st.hot_vms client_ip t1) client_ip
        = some { vm with last_seen := t1 } := by
    rw [lookupHot_setLastSeen_self, h]; rfl
  have h2 :
      lookupHot (setLastSeen (setLastSeen st.hot_vms client_ip t1) client_ip t2)
          client_ip = some { vm with last_seen := t2 } := by
    rw [lookupHot_setLastSeen_self, h1]; rfl
  refine ⟨?_, ?_, ?_, ?_⟩ <;>
    simp [get_target_for_client, h, h1, h2]

/-- Witness for C2 at a concrete one-session pool. -/
theorem stickiness_consecutive_calls_witness :
    (get_target_for_client
        { warm_vm := none
          hot_vms := [("203.0.113.7", ⟨5, "192.168.122.41", "ab12", "/var/lib/libvirt/images/trap_ab12.qcow2", 100⟩)] }
        "203.0.113.7" 150).2 = some "192.168.122.41" ∧
    (get_target_for_client
        (get_target_for_client
          { warm_vm := none
            hot_vms := [("203.0.113.7", ⟨5, "192.168.122.41", "ab12", "/var/lib/libvirt/images/trap_ab12.qcow2", 100⟩)] }
          "203.0.113.7" 150).1 "203.0.113.7" 160).2 = some "192.168.122.41" := by
  have hmain := stickiness_consecutive_calls
    { warm_vm := none
      hot_vms := [("203.0.113.7", ⟨5, "192.168.122.41", "ab12", "/var/lib/libvirt/images/trap_ab12.qcow2", 100⟩)] }
    "203.0.113.7"
    ⟨5, "192.168.122.41", "ab12", "/var/lib/libvirt/images/trap_ab12.qcow2", 100⟩
    150 160 (by decide)
  exact ⟨hmain.1, hmain.2.1⟩

/-- C3.  Capacity rejection: at `MAX_HOT_VMS` hot sessions, a request from a
client that owns no hot session returns `None` and leaves the whole pool state
(warm slot and every session with its `last_seen`) untouched. -/
theorem capacity_rejection (st : PoolState) (client_ip : String) (now : Nat)
    (hfull : st.hot_vms.length = MAX_HOT_VMS)
    (hnew : lookupHot st.hot_vms client_ip = none) :
    get_target_for_client st client_ip now = (st, none) := by
  simp [get_target_for_client, hnew, hfull]

/-- Witness for C3 at a concrete full pool. -/
theorem capacity_rejection_witness :
    get_target_for_client
        { warm_vm := none
          hot_vms := [("203.0.113.7", ⟨5, "192.168.122.41", "ab12", "/var/lib/libvirt/images/trap_ab12.qcow2", 100⟩)] }
        "198.51.100.9" 500
      = ({ warm_vm := none
           hot_vms := [("203.0.113.7", ⟨5, "192.168.122.41", "ab12", "/var/lib/libvirt/images/trap_ab12.qcow2", 100⟩)] },
         none) :=
  capacity_rejection _ "198.51.100.9" 500 (by decide) (by decide)

/-- C10.  Sticky-path frame property: when `client_ip` already owns a hot
session, `get_target_for_client` changes only that session's `last_seen`: the
warm slot, the dict's keys (hence the set of sessions), every other client's
session, and the reused session's domain handle, IP, run id and disk path are
all unchanged. -/
theorem sticky_path_frame (st : PoolState) (client_ip : String) (now : Nat)
    (vm : HotEntry) (h : lookupHot st.hot_vms client_ip = some vm) :
    (get_target_for_client st client_ip now).2 = some vm.ip ∧
    (get_target_for_client st client_ip now).1.warm_vm = st.warm_vm ∧
    (get_target_for_client st client_ip now).1.hot_vms.map Prod.fst
      = st.hot_vms.map Prod.fst ∧
    (∀ k : String, k ≠ client_ip →
        lookupHot (get_target_for_client st client_ip now).1.hot_vms k
          = lookupHot st.hot_vms k) ∧
    (∃ vm' : HotEntry,
        lookupHot (get_target_for_client st client_ip now).1.hot_vms client_ip
            = some vm' ∧
        vm'.dom = vm.dom ∧ vm'.ip = vm.ip ∧ vm'.run_id = vm.run_id ∧
        vm'.disk = vm.disk ∧ vm'.last_seen = now) := by
  refine ⟨by simp [get_target_for_client, h], by simp [get_target_for_client, h],
    ?_, ?_, ?_⟩
  · simp [get_target_for_client, h, setLastSeen_keys]
  · intro k hk
    simp only [get_target_for_client, h]
    exact lookupHot_setLastSeen_ne _ _ _ _ hk
  · refine ⟨{ vm with last_seen := now }, ?_, rfl, rfl, rfl, rfl, rfl⟩
    simp only [get_target_for_client, h]
    rw [lookupHot_setLastSeen_self, h]; rfl

/-- Witness for C10 at a concrete two-session pool. -/
theorem sticky_path_frame_witness :
    (get_target_for_client
        { warm_vm := some ⟨9, "192.168.122.77", "cd34", "/var/lib/libvirt/images/trap_cd34.qcow2"⟩
          hot_vms := [("203.0.113.7", ⟨5, "192.168.122.41", "ab12", "/var/lib/libvirt/images/trap_ab12.qcow2", 100⟩)] }
        "203.0.113.7" 777).2 = some "192.168.122.41" ∧
    (get_target_for_client
        { warm_vm := some ⟨9, "192.168.122.77", "cd34", "/var/lib/libvirt/images/trap_cd34.qcow2"⟩
          hot_vms := [("203.0.113.7", ⟨5, "192.168.122.41", "ab12", "/var/lib/libvirt/images/trap_ab12.qcow2", 100⟩)] }
        "203.0.113.7" 777).1.warm_vm
      = some ⟨9, "192.168.122.77", "cd34", "/var/lib/libvirt/images/trap_cd34.qcow2"⟩ := by
  have hmain := sticky_path_frame
    { warm_vm := some ⟨9, "192.168.122.77", "cd34", "/var/lib/libvirt/images/trap_cd34.qcow2"⟩
      hot_vms := [("203.0.113.7", ⟨5, "192.168.122.41", "ab12", "/var/lib/libvirt/images/trap_ab12.qcow2", 100⟩)] }
    "203.0.113.7" 777
    ⟨5, "192.168.122.41", "ab12", "/var/lib/libvirt/images/trap_ab12.qcow2", 100⟩
    (by decide)
  exact ⟨hmain.1, hmain.2.1⟩

/-- C9.  Deceptive authentication: for every server state, username and
offered credential, `check_auth_password` and `check_auth_publickey` both
return `AUTH_SUCCESSFUL` and record the offered username (and password, for
the password check) — no password or public-key attempt is rejected. -/
theorem deceptive_auth_always_succeeds (s : HoneypotServerInterface)
    (u p fp : String) :
    (check_auth_password s u p).2 = AuthResult.successful ∧
    (check_auth_password s u p).1.username = some u ∧
    (check_auth_password s u p).1.password = some p ∧
    (check_auth_password s u p).1.authLog
      = s.authLog ++ [log_auth_line s.client_ip u p] ∧
    (check_auth_publickey s u fp).2 = AuthResult.successful ∧
    (check_auth_publickey s u fp).1.username = some u :=
  ⟨rfl, rfl, rfl, rfl, rfl, rfl⟩

/-- C8.  Credential fallback, as a statement about
`_resolve_backend_credentials` for each policy/capture combination: with the
attacker-credential-reuse policy enabled and both a (truthy) username and
password captured, the attacker pair is returned; with a username but no
truthy password (e.g. public-key-only auth), the static fallback pair is
returned (never a missing password); with the policy disabled the static
fallback is always returned. -/
theorem credential_fallback (u p : String) (pw : Option String) :
    (u.isEmpty = false → p.isEmpty = false →
        resolve_backend_credentials true (some u) (some p)
          = Except.ok (u, p, none)) ∧
    (u.isEmpty = false → pyTruthy pw = false →
        resolve_backend_credentials true (some u) pw
          = Except.ok (BACKEND_USERNAME, BACKEND_PASSWORD, BACKEND_KEY_PATH)) ∧
    (∀ un pwd : Option String,
        resolve_backend_credentials false un pwd
          = Except.ok (BACKEND_USERNAME, BACKEND_PASSWORD, BACKEND_KEY_PATH)) := by
  refine ⟨fun hu hp => ?_, fun hu hp => ?_, fun un pwd => ?_⟩
  · unfold resolve_backend_credentials
    rw [if_pos (by simp [pyTruthy, hu, hp])]
    rfl
  · unfold resolve_backend_credentials
    rw [if_neg (by simp [hp]), if_pos (by rfl)]
  · unfold resolve_backend_credentials
    rw [if_neg (by simp), if_pos (by rfl)]

/-- Witness for C8 at concrete captured credentials. -/
theorem credential_fallback_witness :
    resolve_backend_credentials true (some "admin") (some "hunter2")
      = Except.ok ("admin", "hunter2", none) ∧
    resolve_backend_credentials true (some "admin") none
      = Except.ok ("root", "root", none) ∧
    resolve_backend_credentials false (some "admin") (some "hunter2")
      = Except.ok ("root", "root", none) := by
  obtain ⟨h1, h2, h3⟩ := credential_fallback "admin" "hunter2" none
  refine ⟨h1 rfl rfl, ?_, ?_⟩
  · simpa [BACKEND_USERNAME, BACKEND_PASSWORD, BACKEND_KEY_PATH] using h2 rfl rfl
  · simpa [BACKEND_USERNAME, BACKEND_PASSWORD, BACKEND_KEY_PATH]
      using h3 (some "admin") (some "hunter2")

/-- C7.  Keystroke-log correctness: feeding `"ls -la\r\nwhoami\r\n"` to a
fresh logger yields exactly the two command lines `"ls -la"` then `"whoami"`;
and for every logger state and input, a trailing backspace (`0x7f`) removes
the last character of the pending (unflushed) buffer and adds nothing to the
logged lines, so the removed character never reaches a logged line. -/
theorem keystroke_log_correctness (st : CommandLogger) (payload : List Nat) :
    (feed_keystrokes initLogger (strCodes "ls -la\r\nwhoami\r\n")).cmdLog
      = [strCodes "ls -la", strCodes "whoami"] ∧
    (feed_keystrokes st (payload ++ [0x7f])).buffer
      = (feed_keystrokes st payload).buffer.dropLast ∧
    (feed_keystrokes st (payload ++ [0x7f])).cmdLog
      = (feed_keystrokes st payload).cmdLog := by
  refine ⟨by decide, ?_, ?_⟩ <;>
    simp [feed_keystrokes, List.foldl_append, feedChar]

/-- Witness for C7: the universally quantified backspace property applied to
the concrete mistyped payload `"lss\x7f"`. -/
theorem keystroke_log_correctness_witness :
    (feed_keystrokes initLogger (strCodes "lss" ++ [0x7f])).buffer
      = strCodes "ls" ∧
    (feed_keystrokes initLogger (strCodes "lss" ++ [0x7f])).cmdLog = [] := by
  obtain ⟨-, h2, h3⟩ :=
    keystroke_log_correctness initLogger (strCodes "lss")
  constructor
  · rw [h2]; decide
  · rw [h3]; decide

theorem warmCount_le_one (st : PoolState) : warmCount st ≤ 1 := by
  cases h : st.warm_vm <;> simp [warmCount, h]

theorem ensure_warm_vm_hot_vms (env : ProvisionEnv) (st : PoolState) :
    (ensure_warm_vm env st).1.hot_vms = st.hot_vms := by
  unfold ensure_warm_vm
  split
  · rfl
  · split
    · rfl
    · split
      · rfl
      · split <;> rfl

theorem get_target_hot_length (st : PoolState) (client_ip : String) (now : Nat)
    (h : st.hot_vms.length ≤ MAX_HOT_VMS) :
    (get_target_for_client st client_ip now).1.hot_vms.length ≤ MAX_HOT_VMS := by
  unfold get_target_for_client
  split
  · simpa [setLastSeen_length] using h
  · split
    · exact h
    · rename_i hlt
      split
      · simpa using Nat.lt_iff_add_one_le.mp (Nat.lt_of_not_le hlt)
      · exact h

theorem cleanup_hot_length (env : ProvisionEnv) (st : PoolState) (now : Nat)
    (force : Bool) (h : st.hot_vms.length ≤ MAX_HOT_VMS) :
    (cleanup_expired_sessions env st now force).1.hot_vms.length
      ≤ MAX_HOT_VMS := by
  exact le_trans (List.length_filter_le _ _) h

/-- C1.  Pool invariant: every state reachable from the freshly initialized
pool by any interleaving of `ensure_warm_vm`, `get_target_for_client` and
`cleanup_expired_sessions` has at most `MAX_HOT_VMS` hot sessions and at most
one warm instance (the warm slot is a single `Option`). -/
theorem pool_invariant (st : PoolState) (h : Reachable st) :
    st.hot_vms.length ≤ MAX_HOT_VMS ∧ warmCount st ≤ 1 := by
  refine ⟨?_, warmCount_le_one st⟩
  induction h with
  | init => simp [initPool]
  | step hr hs ih =>
    cases hs with
    | ensure env s => rw [ensure_warm_vm_hot_vms]; exact ih
    | target client_ip now s => exact get_target_hot_length _ _ _ ih
    | cleanup env now force s => exact cleanup_hot_length _ _ _ _ ih

/-- Witness for C1 at the initial pool state. -/
theorem pool_invariant_witness :
    initPool.hot_vms.length ≤ MAX_HOT_VMS ∧ warmCount initPool ≤ 1 :=
  pool_invariant initPool Reachable.init

/-- C4.  Expiry: `cleanup_expired_sessions(force)` keeps exactly the hot
sessions whose age `now - last_seen` does not strictly exceed
`PERSISTENCE_MINUTES` (none when forced), each kept with its entry — in
particular its `last_seen` — unchanged; for every removed session it runs
`cleanup_vm_entry`, whose effect list destroys the session's VM (when the
domain is active) and deletes its disk (when the file exists); the warm slot
is untouched. -/
theorem cleanup_expired_exact (env : ProvisionEnv) (st : PoolState) (now : Nat)
    (force : Bool) :
    (cleanup_expired_sessions env st now force).1.warm_vm = st.warm_vm ∧
    (∀ c : String, ∀ vm : HotEntry,
        (c, vm) ∈ (cleanup_expired_sessions env st now force).1.hot_vms ↔
          ((c, vm) ∈ st.hot_vms
            ∧ sessionExpired force now vm.last_seen = false)) ∧
    (∀ c : String, ∀ vm : HotEntry, (c, vm) ∈ st.hot_vms →
        sessionExpired force now vm.last_seen = true →
        (env.isActive vm.dom = true →
            Effect.destroyVM vm.dom
              ∈ (cleanup_expired_sessions env st now force).2) ∧
        (env.diskExists vm.disk = true →
            Effect.deleteDisk vm.disk
              ∈ (cleanup_expired_sessions env st now force).2)) ∧
    (force = true →
        (cleanup_expired_sessions env st now force).1.hot_vms = []) := by
  refine ⟨rfl, ?_, ?_, ?_⟩
  · intro c vm
    simp [cleanup_expired_sessions, List.mem_filter]
  · intro c vm hmem hexp
    have hbase :
        (c, vm) ∈ st.hot_vms.filter
          (fun p => sessionExpired force now p.2.last_seen) :=
      List.mem_filter.mpr ⟨hmem, by simpa using hexp⟩
    constructor
    · intro hact
      refine List.mem_flatMap.mpr ⟨(c, vm), hbase, ?_⟩
      simp [cleanup_vm_entry, hact]
    · intro hdisk
      refine List.mem_flatMap.mpr ⟨(c, vm), hbase, ?_⟩
      simp [cleanup_vm_entry, hdisk]
  · intro hforce
    subst hforce
    simp [cleanup_expired_sessions, sessionExpired]

/-- Concrete environment for cleanup runs: every domain reports active and
every disk file exists; no VM creation happens. -/
def envAll : ProvisionEnv :=
  { create := CreateResult.raises none
    ipResult := none
    isActive := fun _ => true
    diskExists := fun _ => true }

/-- Concrete pool with one stale session (idle for 1000 s at `now = 1000`) and
one fresh session (idle for 100 s). -/
def stExpiry : PoolState :=
  { warm_vm := none
    hot_vms :=
      [("203.0.113.7",
          ⟨5, "192.168.122.41", "ab12", "/var/lib/libvirt/images/trap_ab12.qcow2", 0⟩),
        ("198.51.100.9",
          ⟨6, "192.168.122.42", "ef56", "/var/lib/libvirt/images/trap_ef56.qcow2", 900⟩)] }

/-- Witness for C4: on `stExpiry` at `now = 1000` the stale session is removed
with its VM destroyed and disk deleted, the fresh one survives intact, and a
forced run empties the pool. -/
theorem cleanup_expired_exact_witness :
    ("198.51.100.9",
        (⟨6, "192.168.122.42", "ef56", "/var/lib/libvirt/images/trap_ef56.qcow2", 900⟩ : HotEntry))
      ∈ (cleanup_expired_sessions envAll stExpiry 1000 false).1.hot_vms ∧
    ("203.0.113.7",
        (⟨5, "192.168.122.41", "ab12", "/var/lib/libvirt/images/trap_ab12.qcow2", 0⟩ : HotEntry))
      ∉ (cleanup_expired_sessions envAll stExpiry 1000 false).1.hot_vms ∧
    Effect.destroyVM 5 ∈ (cleanup_expired_sessions envAll stExpiry 1000 false).2 ∧
    Effect.deleteDisk "/var/lib/libvirt/images/trap_ab12.qcow2"
      ∈ (cleanup_expired_sessions envAll stExpiry 1000 false).2 ∧
    (cleanup_expired_sessions envAll stExpiry 1000 true).1.hot_vms = [] := by
  obtain ⟨-, hmem, heff, -⟩ := cleanup_expired_exact envAll stExpiry 1000 false
  obtain ⟨-, -, -, hforce⟩ := cleanup_expired_exact envAll stExpiry 1000 true
  refine ⟨?_, ?_, ?_, ?_, hforce rfl⟩
  · exact (hmem _ _).mpr ⟨by decide, by decide⟩
  · intro hc
    exact absurd ((hmem _ _).mp hc).2 (by decide)
  · exact (heff "203.0.113.7"
      ⟨5, "192.168.122.41", "ab12", "/var/lib/libvirt/images/trap_ab12.qcow2", 0⟩
      (by decide) (by decide)).1 rfl
  · exact (heff "203.0.113.7"
      ⟨5, "192.168.122.41", "ab12", "/var/lib/libvirt/images/trap_ab12.qcow2", 0⟩
      (by decide) (by decide)).2 rfl

/-- Environment in which `_create_transient_vm` raises after the overlay disk
was already created (for instance `defineXML` or `create()` failing after
`qemu-img create` succeeded), on a host where disk files exist and domains
report active. -/
def envCreateRaises : ProvisionEnv :=
  { create := CreateResult.raises (some "/var/lib/libvirt/images/trap_dead.qcow2")
    ipResult := none
    isActive := fun _ => true
    diskExists := fun _ => true }

/-- C5 counterexample: when VM creation raises after the overlay disk was
created, `ensure_warm_vm`'s `except` clause only logs the exception — it
performs no teardown, so the claimed `deleteDisk` of the half-built instance's
disk never happens (the effect list is empty) and the orphaned overlay file is
left behind. -/
theorem provisioning_exception_leaves_disk :
    (ensure_warm_vm envCreateRaises initPool).2 = [] ∧
    Effect.deleteDisk "/var/lib/libvirt/images/trap_dead.qcow2"
      ∉ (ensure_warm_vm envCreateRaises initPool).2 := by
  constructor <;> decide

/-- C5 amended.  Provisioning-failure recovery: starting below capacity with
an empty warm slot, (a) on a guest-agent timeout (`get_vm_ip` returns no IP)
`ensure_warm_vm` leaves the pool state unchanged with the warm slot empty and
its effects destroy the half-built domain (when active) and delete its disk
(when present); (b) on an exception raised while creating the overlay disk,
defining, or booting the VM, it catches the exception, returns normally with
no effects, and the warm slot stays empty — no teardown of partial artifacts
is performed.  In both cases the call returns without raising (the embedded
function is total and never produces an error value). -/
theorem provisioning_failure_recovery (env : ProvisionEnv) (st : PoolState)
    (hcap : st.hot_vms.length < MAX_HOT_VMS) (hw : st.warm_vm = none) :
    (∀ dom run_id disk, env.create = CreateResult.ok dom run_id disk →
        env.ipResult = none →
        (ensure_warm_vm env st).1 = st ∧
        (ensure_warm_vm env st).1.warm_vm = none ∧
        (env.isActive dom = true →
            Effect.destroyVM dom ∈ (ensure_warm_vm env st).2) ∧
        (env.diskExists disk = true →
            Effect.deleteDisk disk ∈ (ensure_warm_vm env st).2)) ∧
    (∀ d : Option String, env.create = CreateResult.raises d →
        ensure_warm_vm env st = (st, []) ∧ st.warm_vm = none) := by
  constructor
  · intro dom run_id disk hcreate hip
    have hred : ensure_warm_vm env st = (st, cleanup_vm_entry env dom disk) := by
      simp [ensure_warm_vm, hw, hcreate, hip, Nat.not_le.mpr hcap]
    rw [hred]
    refine ⟨rfl, hw, fun hact => ?_, fun hdisk => ?_⟩
    · simp [cleanup_vm_entry, hact]
    · simp [cleanup_vm_entry, hdisk]
  · intro d hcreate
    have hred : ensure_warm_vm env st = (st, []) := by
      simp [ensure_warm_vm, hw, hcreate, Nat.not_le.mpr hcap]
    exact ⟨hred, hw⟩

/-- Environment for a guest-agent timeout: the VM boots (domain 7) but
`get_vm_ip` never sees a routable IPv4. -/
def envTimeout : ProvisionEnv :=
  { create := CreateResult.ok 7 "dead1" "/var/lib/libvirt/images/trap_dead1.qcow2"
    ipResult := none
    isActive := fun _ => true
    diskExists := fun _ => true }

/-- Witness for amended C5: concrete timeout and exception runs from the
initial pool. -/
theorem provisioning_failure_recovery_witness :
    (ensure_warm_vm envTimeout initPool).1 = initPool ∧
    Effect.destroyVM 7 ∈ (ensure_warm_vm envTimeout initPool).2 ∧
    Effect.deleteDisk "/var/lib/libvirt/images/trap_dead1.qcow2"
      ∈ (ensure_warm_vm envTimeout initPool).2 ∧
    ensure_warm_vm envCreateRaises initPool = (initPool, []) := by
  obtain ⟨hok, -⟩ :=
    provisioning_failure_recovery envTimeout initPool (by decide) rfl
  obtain ⟨ha, -, hc, hd⟩ :=
    hok 7 "dead1" "/var/lib/libvirt/images/trap_dead1.qcow2" rfl rfl
  obtain ⟨-, hraise⟩ :=
    provisioning_failure_recovery envCreateRaises initPool (by decide) rfl
  exact ⟨ha, hc rfl, hd rfl, (hraise _ rfl).1⟩

/-!
## `send_all` theorems
-/

theorem sendLoop_cons (sender : List Nat → Option Nat) (a : Nat)
    (rest : List Nat) :
    sendLoop sender (a :: rest)
      = match sender (a :: rest) with
        | none => Except.ok []
        | some 0 => Except.error ()
        | some (k + 1) =>
          match sendLoop sender ((a :: rest).drop (k + 1)) with
          | Except.ok chunks => Except.ok ((a :: rest).take (k + 1) :: chunks)
          | Except.error e => Except.error e := by
  rw [sendLoop]

theorem sendLoop_pos_delivers (sender : List Nat → Option Nat)
    (hpos : ∀ v : List Nat, v ≠ [] → ∃ k, sender v = some (k + 1)) :
    ∀ (n : Nat) (view : List Nat), view.length ≤ n →
      ∃ chunks, sendLoop sender view = Except.ok chunks
        ∧ chunks.flatten = view := by
  intro n
  induction n with
  | zero =>
    intro view hv
    have hnil : view = [] := List.length_eq_zero.mp (Nat.le_zero.mp hv)
    subst hnil
    exact ⟨[], by rw [sendLoop], rfl⟩
  | succ n ih =>
    intro view hv
    match view with
    | [] => exact ⟨[], by rw [sendLoop], rfl⟩
    | a :: rest =>
      obtain ⟨k, hk⟩ := hpos (a :: rest) (by simp)
      obtain ⟨chunks, hc, hf⟩ :=
        ih ((a :: rest).drop (k + 1)) (by simp at hv ⊢; omega)
      refine ⟨(a :: rest).take (k + 1) :: chunks, ?_, ?_⟩
      · rw [sendLoop_cons, hk]
        simp only [List.drop_succ_cons] at hc
        simp [hc]
      · simp [hf]

/-- C6.  Partial-send completeness: for every payload, (a) under any sender
that on each call accepts at least one and possibly fewer than all remaining
bytes, `send_all` returns normally and the chunks accepted by the successive
calls concatenate — in order — to exactly the payload; (b) if a send call
accepts `0` bytes, `send_all` raises `EOFError` rather than dropping the
rest. -/
theorem send_all_partial_sends (data : List Nat) :
    (∀ sender : List Nat → Option Nat,
        (∀ v : List Nat, v ≠ [] → ∃ k, sender v = some (k + 1)) →
        ∃ chunks, send_all sender data = Except.ok chunks
          ∧ chunks.flatten = data) ∧
    (∀ sender : List Nat → Option Nat, data ≠ [] → sender data = some 0 →
        send_all sender data = Except.error ()) := by
  constructor
  · intro sender hpos
    by_cases hd : data.isEmpty
    · exact ⟨[], by simp [send_all, hd], by simp [List.isEmpty_iff.mp hd]⟩
    · obtain ⟨chunks, hc, hf⟩ :=
        sendLoop_pos_delivers sender hpos data.length data le_rfl
      exact ⟨chunks, by simp [send_all, hd, hc], hf⟩
  · intro sender hne hzero
    match data, hne with
    | a :: rest, _ =>
      simp only [send_all, List.isEmpty_cons, if_false, Bool.false_eq_true,
        sendLoop_cons]
      rw [hzero]

/-- Witness for C6: a sender accepting at most 7 bytes per call delivers a
20-byte payload intact, and a sender accepting 0 bytes raises `EOFError`. -/
theorem send_all_partial_sends_witness :
    (∃ chunks,
        send_all (fun v => some (min 7 v.length)) (List.range 20)
            = Except.ok chunks
          ∧ chunks.flatten = List.range 20) ∧
    send_all (fun _ => some 0) [42] = Except.error () := by
  constructor
  · refine (send_all_partial_sends (List.range 20)).1 _ ?_
    intro v hv
    refine ⟨min 7 v.length - 1, ?_⟩
    have h1 : 1 ≤ v.length := List.length_pos.mpr hv
    have h2 : 1 ≤ min 7 v.length := le_min (by omega) h1
    congr 1
    omega
  · exact (send_all_partial_sends [42]).2 _ (by simp) rfl

end HoneyManager
